import Mathlib

/-!
Shallow embedding of `src/utils/data_augment.py` (geometric data-augmentation
primitives: random crop offsets, padding, cropping, and the composite
scale-crop operator with intrinsic-matrix propagation), together with proofs
of the specified properties.

Modelling conventions:
* A numpy image is modelled by `NpImage`: its `ndim` (`dim`), its `shape[1]`
  (`width`) and the entries of its first two (spatial) axes as a list of rows.
  For rank-3 arrays the pixel type `α` stands for the channel vector, so
  spatial slicing and spatial padding act on `rows` exactly as `img[a:b, c:d]`
  (resp. `img[a:b, c:d, :]`) and `np.pad` with `(0,0)` on the channel axis do.
* Python slicing `l[a:b]` (for `0 ≤ a ≤ b`) is `(l.drop a).take (b - a)`,
  which clamps at the ends exactly as numpy does; the resulting `shape`
  entry is `min (b - a) (n - a)` in truncated `Nat` subtraction.
* The possible runtime exceptions of the module are the constructors of
  `PyError`; a function that can raise returns `Except PyError _`, and
  `crop_img`, whose Python body can fall through all branches and return
  `None`, returns an `Option` inside the `Except`.
* `np.random.randint` and `skimage.transform.rescale` are external library
  primitives; they enter the embedding as function parameters (`randint`,
  `rescale`) and the theorems quantify over every implementation satisfying
  the library's documented contract.
-/

namespace DataAugment

/-- A numpy array viewed as an image: `dim` is `ndim`, `width` is `shape[1]`,
`rows` holds the entries of the first two axes (for rank-3 arrays each entry
of type `α` is the whole channel vector).  For `dim ∉ {2, 3}` only the `dim`
field is meaningful: the code paths the claims exercise never read the data
of such arrays. -/
structure NpImage (α : Type) where
  dim : Nat
  width : Nat
  rows : List (List α)
deriving DecidableEq

/-- Height `shape[0]` of the image. -/
def NpImage.height {α : Type} (a : NpImage α) : Nat := a.rows.length

/-- The image is rectangular: every row has length `shape[1]` (true of every
actual numpy array). -/
def NpImage.Rect {α : Type} (a : NpImage α) : Prop :=
  ∀ r ∈ a.rows, r.length = a.width

instance {α : Type} [DecidableEq α] (a : NpImage α) : Decidable a.Rect := by
  unfold NpImage.Rect; infer_instance

/-- Model of `crop_size`: either a scalar (square crop) or an explicit
`(crop_h, crop_w)` tuple, as dispatched by `isinstance(crop_size, tuple)`. -/
inductive CropSize
  | scalar (n : Nat)
  | pair (h w : Nat)
deriving DecidableEq

/-- Value `crop_height` as unpacked by the repeated
`if isinstance(crop_size, tuple)` blocks. -/
def CropSize.cropHeight : CropSize → Nat
  | .scalar n => n
  | .pair h _ => h

/-- Value `crop_width` as unpacked by the same blocks. -/
def CropSize.cropWidth : CropSize → Nat
  | .scalar n => n
  | .pair _ w => w

/-- The runtime exceptions the module can raise. -/
inductive PyError
  /-- Python `RuntimeError(f"invalid image type = ...")` -/
  | unsupportedType
  /-- Python `RuntimeError(f"invalid input image dimension num = ...")` -/
  | invalidDimension
  /-- Python `NameError: name 'torch' is not defined` — `crop_img` line 92 evaluates
  `torch.is_tensor(img)`, but the module never imports `torch`. -/
  | nameErrorTorch
  /-- Python `AttributeError` raised when a later line touches an implicit `None`. -/
  | attributeNone
deriving DecidableEq

/-- The possible runtime types of the `img` argument: a numpy array, a torch
tensor (also carrying image data), or anything else. -/
inductive PyImage (α : Type)
  | ndarray (a : NpImage α)
  | tensorLike (a : NpImage α)
  | other
deriving DecidableEq

/-! ## `pad_width_or_height` (source lines 46-77, numpy branch) -/

/-- One row of the `np.pad` result: `p_left` fill pixels, the row, `p_right`
fill pixels. -/
def padRow {α : Type} (p_left p_right : Nat) (padPix : α) (r : List α) : List α :=
  List.replicate p_left padPix ++ r ++ List.replicate p_right padPix

/-- Model of `pad_width_or_height(data, output_width, output_height, pad_value,
return_offsets=True)` for array input: reads `height, width` from the shape,
computes the four pad amounts (an axis is padded only when strictly smaller
than the target, split with `floor` on the leading side), and applies
`np.pad` with constant fill.  `padPix` is the constant fill pixel
(`pad_value`, replicated over channels for rank-3 input).  The
`return_offsets=False` variant merely drops the four amounts from the
returned tuple, so the embedding always returns them. -/
def pad_width_or_height {α : Type} (data : NpImage α)
    (output_width output_height : Nat) (padPix : α) :
    NpImage α × Nat × Nat × Nat × Nat :=
  let height := data.height
  let width := data.width
  let p_left := if width < output_width then (output_width - width) / 2 else 0
  let p_right := if width < output_width then (output_width - width) - p_left else 0
  let p_top := if height < output_height then (output_height - height) / 2 else 0
  let p_bottom := if height < output_height then (output_height - height) - p_top else 0
  let blank := List.replicate (p_left + width + p_right) padPix
  (⟨data.dim, p_left + width + p_right,
      List.replicate p_top blank
        ++ data.rows.map (padRow p_left p_right padPix)
        ++ List.replicate p_bottom blank⟩,
    p_top, p_bottom, p_left, p_right)

/-! ## `crop_img` (source lines 81-108) -/

/-- The spatial slice `img[h_offset : h_offset+crop_height,
w_offset : w_offset+crop_width (, :)]` shared by the `dim == 3` and
`dim == 2` branches; the resulting `shape[1]` follows numpy's clamped slice
length. -/
def crop_core {α : Type} (a : NpImage α) (crop_size : CropSize)
    (h_offset w_offset : Nat) : NpImage α :=
  let crop_height := crop_size.cropHeight
  let crop_width := crop_size.cropWidth
  ⟨a.dim, min crop_width (a.width - w_offset),
    ((a.rows.drop h_offset).take crop_height).map fun r =>
      (r.drop w_offset).take crop_width⟩

/-- Model of `crop_img(img, crop_size, h_offset, w_offset)`.  For a non-`ndarray`
input the dispatch reaches `elif torch.is_tensor(img)` and dies with a
`NameError` (no `import torch` in the module), so the
`raise RuntimeError("invalid image type")` line is unreachable.  For an
`ndarray` of rank other than 2 or 3 the function falls off the end of the
`if dim == 3 / elif dim == 2` chain and implicitly returns `None`
(modelled by `.ok none`). -/
def crop_img {α : Type} (img : PyImage α) (crop_size : CropSize)
    (h_offset w_offset : Nat) : Except PyError (Option (NpImage α)) :=
  match img with
  | .ndarray a =>
      if a.dim = 3 then .ok (some (crop_core a crop_size h_offset w_offset))
      else if a.dim = 2 then .ok (some (crop_core a crop_size h_offset w_offset))
      else .ok none
  | _ => .error .nameErrorTorch

/-! ## `get_random_crop_offsets` (source lines 33-42) -/

/-- Model of `get_random_crop_offsets(crop_size, height, width)`, parameterized by the
external `np.random.randint` (`randint lo hi` draws an integer from
`[lo, hi)`).  The arithmetic is over `Int`, as in Python, so
`width - crop_width - 1` may be negative before the `max(1, ·)` guard. -/
def get_random_crop_offsets (randint : Int → Int → Int) (crop_size : CropSize)
    (height width : Nat) : Int × Int :=
  let crop_height := crop_size.cropHeight
  let crop_width := crop_size.cropWidth
  let w_offset := randint 0 (max 1 ((width : Int) - crop_width - 1))
  let h_offset := randint 0 (max 1 ((height : Int) - crop_height - 1))
  (h_offset, w_offset)

/-! ## `scale_crop` (source lines 112-173) -/

/-- Scale matrix: `Ks = np.eye(3); Ks[0,0] = scale_factor; Ks[1,1] = scale_factor`. -/
def Ks_mat (scale_factor : ℚ) : Matrix (Fin 3) (Fin 3) ℚ :=
  !![scale_factor, 0, 0; 0, scale_factor, 0; 0, 0, 1]

/-- Crop-translation matrix: `Kc = np.eye(3); Kc[0,2] = -w_offset; Kc[1,2] = -h_offset`. -/
def Kc_mat (w_offset h_offset : ℚ) : Matrix (Fin 3) (Fin 3) ℚ :=
  !![1, 0, -w_offset; 0, 1, -h_offset; 0, 0, 1]

/-- Pad-translation matrix: `Kp = np.eye(3); Kp[0,2] = p_left; Kp[1,2] = p_top`. -/
def Kp_mat (p_left p_top : ℚ) : Matrix (Fin 3) (Fin 3) ℚ :=
  !![1, 0, p_left; 0, 1, p_top; 0, 0, 1]

/-- The conditional pad step of `scale_crop` (lines 158-162): pad only when
the cropped image is smaller than the target along either axis; otherwise
all four pad amounts are zero. -/
def scale_crop_pad {α : Type} (cropped : NpImage α)
    (crop_height crop_width : Nat) (padPix : α) :
    NpImage α × Nat × Nat × Nat × Nat :=
  if cropped.height < crop_height ∨ cropped.width < crop_width then
    pad_width_or_height cropped crop_width crop_height padPix
  else (cropped, 0, 0, 0, 0)

/-- Model of `scale_crop(img, crop_size, h_offset, w_offset, scale_factor, K)`:
type-check (`ndarray` or raise), rescale by the external `rescale` primitive
(the `dim == 3` and `dim == 2` branches call it with different channel
keywords; rank outside `{2,3}` raises), crop via `crop_img`, conditionally
pad to the crop size, and — when `K` is supplied — return
`Kp.dot(Kc.dot(Ks.dot(K)))` alongside the image.  The debug image dumps are
side channels outside the contract and are omitted. -/
def scale_crop {α : Type} (rescale : NpImage α → ℚ → NpImage α) (padPix : α)
    (img : PyImage α) (crop_size : CropSize) (h_offset w_offset : Nat)
    (scale_factor : ℚ) (K : Option (Matrix (Fin 3) (Fin 3) ℚ)) :
    Except PyError (NpImage α × Option (Matrix (Fin 3) (Fin 3) ℚ)) :=
  match img with
  | .ndarray a =>
      let crop_height := crop_size.cropHeight
      let crop_width := crop_size.cropWidth
      if a.dim = 3 ∨ a.dim = 2 then
        let scaled := rescale a scale_factor
        match crop_img (.ndarray scaled) crop_size h_offset w_offset with
        | .ok (some cropped) =>
            let padded := scale_crop_pad cropped crop_height crop_width padPix
            match K with
            | some k =>
                .ok (padded.1,
                  some (Kp_mat padded.2.2.2.1 padded.2.1 *
                    (Kc_mat w_offset h_offset * (Ks_mat scale_factor * k))))
            | none => .ok (padded.1, none)
        | .ok none => .error .attributeNone
        | .error e => .error e
      else .error .invalidDimension
  | _ => .error .unsupportedType

/-! ## Helper lemmas about the padder -/

theorem pad_p_top_eq {α : Type} (d : NpImage α) (ow oh : Nat) (p : α) :
    (pad_width_or_height d ow oh p).2.1 =
      if d.height < oh then (oh - d.height) / 2 else 0 := rfl

theorem pad_p_bottom_eq {α : Type} (d : NpImage α) (ow oh : Nat) (p : α) :
    (pad_width_or_height d ow oh p).2.2.1 =
      if d.height < oh then (oh - d.height) - (oh - d.height) / 2 else 0 := by
  simp only [pad_width_or_height]
  split <;> simp [*]

theorem pad_p_left_eq {α : Type} (d : NpImage α) (ow oh : Nat) (p : α) :
    (pad_width_or_height d ow oh p).2.2.2.1 =
      if d.width < ow then (ow - d.width) / 2 else 0 := rfl

theorem pad_p_right_eq {α : Type} (d : NpImage α) (ow oh : Nat) (p : α) :
    (pad_width_or_height d ow oh p).2.2.2.2 =
      if d.width < ow then (ow - d.width) - (ow - d.width) / 2 else 0 := by
  simp only [pad_width_or_height]
  split <;> simp [*]

theorem pad_img_dim {α : Type} (d : NpImage α) (ow oh : Nat) (p : α) :
    (pad_width_or_height d ow oh p).1.dim = d.dim := rfl

theorem pad_img_width {α : Type} (d : NpImage α) (ow oh : Nat) (p : α) :
    (pad_width_or_height d ow oh p).1.width =
      (pad_width_or_height d ow oh p).2.2.2.1 + d.width +
        (pad_width_or_height d ow oh p).2.2.2.2 := rfl

theorem pad_img_height {α : Type} (d : NpImage α) (ow oh : Nat) (p : α) :
    (pad_width_or_height d ow oh p).1.height =
      (pad_width_or_height d ow oh p).2.1 + d.height +
        (pad_width_or_height d ow oh p).2.2.1 := by
  simp [pad_width_or_height, NpImage.height]
  omega

theorem pad_height_ge {α : Type} (d : NpImage α) (ow oh : Nat) (p : α) :
    oh ≤ (pad_width_or_height d ow oh p).1.height := by
  rw [pad_img_height, pad_p_top_eq, pad_p_bottom_eq]
  split <;> omega

theorem pad_width_ge {α : Type} (d : NpImage α) (ow oh : Nat) (p : α) :
    ow ≤ (pad_width_or_height d ow oh p).1.width := by
  rw [pad_img_width, pad_p_left_eq, pad_p_right_eq]
  split <;> omega

theorem pad_height_of_le {α : Type} (d : NpImage α) (ow oh : Nat) (p : α)
    (h : d.height ≤ oh) : (pad_width_or_height d ow oh p).1.height = oh := by
  rw [pad_img_height, pad_p_top_eq, pad_p_bottom_eq]
  split <;> omega

theorem pad_width_of_le {α : Type} (d : NpImage α) (ow oh : Nat) (p : α)
    (h : d.width ≤ ow) : (pad_width_or_height d ow oh p).1.width = ow := by
  rw [pad_img_width, pad_p_left_eq, pad_p_right_eq]
  split <;> omega

theorem pad_noop {α : Type} (d : NpImage α) (ow oh : Nat) (p : α)
    (h1 : oh ≤ d.height) (h2 : ow ≤ d.width) :
    pad_width_or_height d ow oh p = (d, 0, 0, 0, 0) := by
  simp only [pad_width_or_height, Nat.not_lt.2 h1, Nat.not_lt.2 h2, if_false,
    List.replicate_zero, List.nil_append, List.append_nil, Nat.zero_add,
    Nat.add_zero]
  have hfun : padRow 0 0 p = fun r : List α => r := by
    funext r
    simp [padRow]
  rw [hfun]
  simp

/-! ## Helper lemmas about the cropper -/

theorem crop_core_height {α : Type} (a : NpImage α) (cs : CropSize) (ho wo : Nat) :
    (crop_core a cs ho wo).height = min cs.cropHeight (a.height - ho) := by
  simp [crop_core, NpImage.height]

theorem crop_core_height_le {α : Type} (a : NpImage α) (cs : CropSize) (ho wo : Nat) :
    (crop_core a cs ho wo).height ≤ cs.cropHeight := by
  rw [crop_core_height]
  exact Nat.min_le_left _ _

theorem crop_core_width_le {α : Type} (a : NpImage α) (cs : CropSize) (ho wo : Nat) :
    (crop_core a cs ho wo).width ≤ cs.cropWidth := by
  simp [crop_core]

theorem scale_crop_pad_height {α : Type} (c : NpImage α) (ch cw : Nat) (p : α)
    (h : c.height ≤ ch) : (scale_crop_pad c ch cw p).1.height = ch := by
  unfold scale_crop_pad
  split
  · exact pad_height_of_le c cw ch p h
  · show c.height = ch
    omega

theorem scale_crop_pad_width {α : Type} (c : NpImage α) (ch cw : Nat) (p : α)
    (h : c.width ≤ cw) : (scale_crop_pad c ch cw p).1.width = cw := by
  unfold scale_crop_pad
  split
  · exact pad_width_of_le c cw ch p h
  · show c.width = cw
    omega

/-! ## C7: pad canvas size and split rule -/

/-- Claim C7: For every image and target size, `pad_width_or_height` returns a
canvas with height ≥ `output_height` and width ≥ `output_width`; it pads an
axis only when the source dimension is strictly smaller than the target,
with `p_top = ⌊(output_height - height)/2⌋` and
`p_bottom = (output_height - height) - p_top` (so `p_top ≤ p_bottom`: the
odd leftover pixel goes to the bottom), and symmetrically
`p_left = ⌊(output_width - width)/2⌋`,
`p_right = (output_width - width) - p_left` (so `p_left ≤ p_right`: the odd
leftover pixel goes to the right). -/
theorem C7_pad_canvas_and_split {α : Type} (data : NpImage α)
    (output_width output_height : Nat) (padPix : α) :
    output_height ≤ (pad_width_or_height data output_width output_height padPix).1.height ∧
    output_width ≤ (pad_width_or_height data output_width output_height padPix).1.width ∧
    (pad_width_or_height data output_width output_height padPix).2.1 =
      (if data.height < output_height then (output_height - data.height) / 2 else 0) ∧
    (pad_width_or_height data output_width output_height padPix).2.2.1 =
      (if data.height < output_height then
        (output_height - data.height) - (output_height - data.height) / 2 else 0) ∧
    (pad_width_or_height data output_width output_height padPix).2.2.2.1 =
      (if data.width < output_width then (output_width - data.width) / 2 else 0) ∧
    (pad_width_or_height data output_width output_height padPix).2.2.2.2 =
      (if data.width < output_width then
        (output_width - data.width) - (output_width - data.width) / 2 else 0) ∧
    (pad_width_or_height data output_width output_height padPix).2.1 ≤
      (pad_width_or_height data output_width output_height padPix).2.2.1 ∧
    (pad_width_or_height data output_width output_height padPix).2.2.2.1 ≤
      (pad_width_or_height data output_width output_height padPix).2.2.2.2 := by
  refine ⟨pad_height_ge data _ _ padPix, pad_width_ge data _ _ padPix,
    pad_p_top_eq data _ _ padPix, pad_p_bottom_eq data _ _ padPix,
    pad_p_left_eq data _ _ padPix, pad_p_right_eq data _ _ padPix, ?_, ?_⟩
  · rw [pad_p_top_eq, pad_p_bottom_eq]
    split <;> omega
  · rw [pad_p_left_eq, pad_p_right_eq]
    split <;> omega

/-! ## C8: pad no-op and idempotence -/

/-- Claim C8: An image whose height and width are already ≥ the target is
returned with unchanged content and all four pad amounts zero, and applying
`pad_width_or_height` twice with the same target equals applying it once
(the second application is a no-op with zero amounts). -/
theorem C8_pad_noop_and_idempotent {α : Type} (data : NpImage α)
    (output_width output_height : Nat) (padPix : α) :
    (output_height ≤ data.height → output_width ≤ data.width →
      pad_width_or_height data output_width output_height padPix =
        (data, 0, 0, 0, 0)) ∧
    pad_width_or_height
        (pad_width_or_height data output_width output_height padPix).1
        output_width output_height padPix =
      ((pad_width_or_height data output_width output_height padPix).1,
        0, 0, 0, 0) := by
  refine ⟨fun h1 h2 => pad_noop data _ _ padPix h1 h2, ?_⟩
  exact pad_noop _ _ _ padPix (pad_height_ge data _ _ padPix)
    (pad_width_ge data _ _ padPix)

/-- Closed instance of C8: a 2×3 image is already at least 3×2, so padding
to a 3×2 target returns it untouched with zero amounts. -/
theorem C8_witness :
    pad_width_or_height (⟨2, 3, [[1, 2, 3], [4, 5, 6]]⟩ : NpImage Nat) 3 2 9 =
      (⟨2, 3, [[1, 2, 3], [4, 5, 6]]⟩, 0, 0, 0, 0) :=
  (C8_pad_noop_and_idempotent ⟨2, 3, [[1, 2, 3], [4, 5, 6]]⟩ 3 2 9).1
    (by decide) (by decide)

theorem pad_img_rows {α : Type} (d : NpImage α) (ow oh : Nat) (p : α) :
    (pad_width_or_height d ow oh p).1.rows =
      List.replicate (pad_width_or_height d ow oh p).2.1
          (List.replicate (pad_width_or_height d ow oh p).1.width p)
        ++ d.rows.map (padRow (pad_width_or_height d ow oh p).2.2.2.1
            (pad_width_or_height d ow oh p).2.2.2.2 p)
        ++ List.replicate (pad_width_or_height d ow oh p).2.2.1
          (List.replicate (pad_width_or_height d ow oh p).1.width p) := rfl

/-! ## C9: pad followed by crop recovers the original image -/

/-- Claim C9: For every (rectangular, rank 2 or 3) image of original size
`(h, w)` padded by `pad_width_or_height` with reported amounts
`(top, bottom, left, right)`, cropping the padded result with crop size
`(h, w)` at offsets `(top, left)` returns the original image pixel-exactly. -/
theorem C9_pad_crop_roundtrip {α : Type} (data : NpImage α)
    (output_width output_height : Nat) (padPix : α)
    (hrect : data.Rect) (hdim : data.dim = 2 ∨ data.dim = 3) :
    crop_img
        (.ndarray (pad_width_or_height data output_width output_height padPix).1)
        (.pair data.height data.width)
        (pad_width_or_height data output_width output_height padPix).2.1
        (pad_width_or_height data output_width output_height padPix).2.2.2.1 =
      .ok (some data) := by
  have hcrop :
      crop_core (pad_width_or_height data output_width output_height padPix).1
        (.pair data.height data.width)
        (pad_width_or_height data output_width output_height padPix).2.1
        (pad_width_or_height data output_width output_height padPix).2.2.2.1 =
      data := by
    unfold crop_core
    simp only [CropSize.cropHeight, CropSize.cropWidth]
    have hw : min data.width
        ((pad_width_or_height data output_width output_height padPix).1.width -
          (pad_width_or_height data output_width output_height padPix).2.2.2.1) =
        data.width := by
      rw [pad_img_width]
      omega
    have hrows :
        (((pad_width_or_height data output_width output_height padPix).1.rows.drop
              (pad_width_or_height data output_width output_height padPix).2.1).take
            data.height).map
          (fun r =>
            (r.drop
                (pad_width_or_height data output_width output_height
                  padPix).2.2.2.1).take data.width) = data.rows := by
      rw [pad_img_rows, List.append_assoc,
        List.drop_left' (List.length_replicate _ _),
        List.take_left' (by rw [List.length_map]; rfl), List.map_map]
      refine (List.map_congr_left ?_).trans (List.map_id data.rows)
      intro r hr
      simp only [Function.comp_apply, padRow, List.append_assoc, id_eq]
      rw [List.drop_left' (List.length_replicate _ _),
        List.take_left' (hrect r hr)]
    rw [hw, hrows, pad_img_dim]
  have hd : (pad_width_or_height data output_width output_height padPix).1.dim =
      data.dim := pad_img_dim data _ _ padPix
  rcases hdim with h | h <;> simp [crop_img, hd, h, hcrop]

/-- Closed instance of C9: a 2×3 rank-2 image padded to a 7×5 canvas
(amounts top 1, bottom 2, left 2, right 2) and cropped back at offsets
`(1, 2)` with crop size `(2, 3)` is recovered exactly. -/
theorem C9_witness :
    crop_img
        (.ndarray (pad_width_or_height (⟨2, 3, [[1, 2, 3], [4, 5, 6]]⟩ : NpImage Nat)
            7 5 0).1)
        (.pair 2 3)
        (pad_width_or_height (⟨2, 3, [[1, 2, 3], [4, 5, 6]]⟩ : NpImage Nat) 7 5 0).2.1
        (pad_width_or_height (⟨2, 3, [[1, 2, 3], [4, 5, 6]]⟩ : NpImage Nat)
            7 5 0).2.2.2.1 =
      .ok (some ⟨2, 3, [[1, 2, 3], [4, 5, 6]]⟩) :=
  C9_pad_crop_roundtrip ⟨2, 3, [[1, 2, 3], [4, 5, 6]]⟩ 7 5 0 (by decide)
    (Or.inl rfl)

/-- Unfolding of `scale_crop` on its success path: for a rank-2 or rank-3
array and a rank-preserving rescale primitive, the call returns the
conditionally padded crop of the rescaled image together with (when `K` is
supplied) `Kp.dot(Kc.dot(Ks.dot(K)))`. -/
theorem scale_crop_eq_ok {α : Type} (rescale : NpImage α → ℚ → NpImage α)
    (padPix : α) (a : NpImage α) (crop_size : CropSize)
    (h_offset w_offset : Nat) (scale_factor : ℚ)
    (K : Option (Matrix (Fin 3) (Fin 3) ℚ))
    (hdim : a.dim = 2 ∨ a.dim = 3)
    (hres : (rescale a scale_factor).dim = a.dim) :
    scale_crop rescale padPix (.ndarray a) crop_size h_offset w_offset
        scale_factor K =
      .ok ((scale_crop_pad
            (crop_core (rescale a scale_factor) crop_size h_offset w_offset)
            crop_size.cropHeight crop_size.cropWidth padPix).1,
        K.map fun k =>
          Kp_mat
              (scale_crop_pad
                (crop_core (rescale a scale_factor) crop_size h_offset w_offset)
                crop_size.cropHeight crop_size.cropWidth padPix).2.2.2.1
              (scale_crop_pad
                (crop_core (rescale a scale_factor) crop_size h_offset w_offset)
                crop_size.cropHeight crop_size.cropWidth padPix).2.1 *
            (Kc_mat w_offset h_offset * (Ks_mat scale_factor * k))) := by
  rcases hdim with h | h <;> cases K <;> simp [scale_crop, crop_img, hres, h]

/-! ## C1: the composite always emits an image of exactly the crop size -/

/-- Claim C1: For every rank-2 or rank-3 array and every crop size (scalar or
`(height, width)` pair), `scale_crop` succeeds and its output image has
exactly `crop_height` rows and `crop_width` columns on the spatial axes,
whether or not padding was needed after the crop.  `rescale` ranges over
every implementation of the external rescaling primitive that preserves the
array rank, as `skimage.transform.rescale` does. -/
theorem C1_scale_crop_output_shape {α : Type}
    (rescale : NpImage α → ℚ → NpImage α) (padPix : α) (a : NpImage α)
    (crop_size : CropSize) (h_offset w_offset : Nat) (scale_factor : ℚ)
    (K : Option (Matrix (Fin 3) (Fin 3) ℚ))
    (hdim : a.dim = 2 ∨ a.dim = 3)
    (hres : (rescale a scale_factor).dim = a.dim) :
    ∃ out, scale_crop rescale padPix (.ndarray a) crop_size h_offset w_offset
        scale_factor K = .ok out ∧
      out.1.height = crop_size.cropHeight ∧
      out.1.width = crop_size.cropWidth := by
  refine ⟨_, scale_crop_eq_ok rescale padPix a crop_size h_offset w_offset
    scale_factor K hdim hres, ?_, ?_⟩
  · exact scale_crop_pad_height _ _ _ padPix (crop_core_height_le _ _ _ _)
  · exact scale_crop_pad_width _ _ _ padPix (crop_core_width_le _ _ _ _)

/-- Closed instance of C1: a 3×4 rank-2 image with a square crop size of 2
(undersized case never triggers here; offsets 2,3 force clamping and then
padding) still comes out exactly 2×2. -/
theorem C1_witness :
    ∃ out, scale_crop (fun b _ => b) 7
        (.ndarray (⟨2, 4, [[1, 2, 3, 4], [5, 6, 7, 8], [9, 10, 11, 12]]⟩ :
          NpImage Nat))
        (.scalar 2) 2 3 1 none = .ok out ∧
      out.1.height = CropSize.cropHeight (.scalar 2) ∧
      out.1.width = CropSize.cropWidth (.scalar 2) :=
  C1_scale_crop_output_shape (fun b _ => b) 7
    ⟨2, 4, [[1, 2, 3, 4], [5, 6, 7, 8], [9, 10, 11, 12]]⟩ (.scalar 2) 2 3 1
    none (Or.inl rfl) rfl

/-! ## C4: scale_crop error taxonomy -/

/-- Claim C4: `scale_crop` raises the unsupported-type error
(`RuntimeError("invalid image type = ...")`) for any input image that is
not a numpy array, and raises the invalid-dimension error
(`RuntimeError("invalid input image dimension num = ...")`) for any numpy
array whose rank is neither 2 nor 3; in both cases no image is returned
(the result is an `Except.error`, never an `Except.ok`). -/
theorem C4_scale_crop_errors {α : Type} (rescale : NpImage α → ℚ → NpImage α)
    (padPix : α) (crop_size : CropSize) (h_offset w_offset : Nat)
    (scale_factor : ℚ) (K : Option (Matrix (Fin 3) (Fin 3) ℚ)) :
    (∀ img : PyImage α, (∀ b : NpImage α, img ≠ PyImage.ndarray b) →
      scale_crop rescale padPix img crop_size h_offset w_offset scale_factor
          K = .error .unsupportedType) ∧
    (∀ a : NpImage α, a.dim ≠ 2 → a.dim ≠ 3 →
      scale_crop rescale padPix (.ndarray a) crop_size h_offset w_offset
          scale_factor K = .error .invalidDimension) := by
  constructor
  · intro img hne
    cases img with
    | ndarray b => exact absurd rfl (hne b)
    | tensorLike b => rfl
    | other => rfl
  · intro a h2 h3
    simp [scale_crop, h2, h3]

/-- Closed instance of C4: a non-array input (and separately a rank-4
array) makes `scale_crop` fail with the corresponding error. -/
theorem C4_witness :
    scale_crop (fun b _ => b) 0 (PyImage.other : PyImage Nat) (.scalar 2) 0 0
        1 none = .error .unsupportedType ∧
    scale_crop (fun b _ => b) 0
        (.ndarray (⟨4, 5, []⟩ : NpImage Nat)) (.scalar 2) 0 0 1 none =
      .error .invalidDimension :=
  ⟨(C4_scale_crop_errors (fun b _ => b) 0 (.scalar 2) 0 0 1 none).1
      PyImage.other (fun b h => PyImage.noConfusion h),
   (C4_scale_crop_errors (fun b _ => b) 0 (.scalar 2) 0 0 1 none).2
      ⟨4, 5, []⟩ (by decide) (by decide)⟩

/-! ## C3: crop_img on a non-array input (code bug) -/

/-- Claim C3 (code bug): The spec says `crop_img` raises the unsupported-type
error for inputs that are neither numpy arrays nor recognized tensors, and
the function body indeed ends in `raise RuntimeError(f"invalid image type
...")` — but that line is unreachable: the dispatch first evaluates
`torch.is_tensor(img)` and the module never imports `torch`, so every
non-`ndarray` input (a tensor included) dies with
`NameError: name 'torch' is not defined` instead. -/
theorem C3_crop_img_non_array_hits_NameError :
    crop_img (PyImage.other : PyImage Nat) (.scalar 2) 0 0 =
        .error .nameErrorTorch ∧
    crop_img (PyImage.other : PyImage Nat) (.scalar 2) 0 0 ≠
        .error .unsupportedType ∧
    crop_img (.tensorLike (⟨3, 1, [[0]]⟩ : NpImage Nat)) (.scalar 1) 0 0 =
        .error .nameErrorTorch :=
  ⟨rfl, by simp [crop_img], rfl⟩

/-! ## C5: no partial results on the success path (corrected) -/

/-- Claim C5, counterexample: A rank-1 numpy array is accepted by `crop_img`
without any exception, yet the call falls through the `dim == 3` /
`dim == 2` chain and returns Python `None` — a garbage result on the
success path. -/
theorem C5_counterexample :
    crop_img (.ndarray (⟨1, 5, []⟩ : NpImage Nat)) (.scalar 2) 0 0 =
      .ok none := rfl

/-- Claim C5 (amended): Restricted to numpy arrays of rank 2 or 3 (with a
rank-preserving rescale primitive), the public operations return
fully-formed results on the success path: `crop_img` returns an actual
image and `scale_crop` returns the image (plus the intrinsic when
requested).  For any other array rank, `crop_img` silently returns `None`
instead of raising. -/
theorem C5_success_path_total {α : Type} (a : NpImage α) (crop_size : CropSize)
    (h_offset w_offset : Nat) (rescale : NpImage α → ℚ → NpImage α)
    (padPix : α) (scale_factor : ℚ) (K : Option (Matrix (Fin 3) (Fin 3) ℚ))
    (hdim : a.dim = 2 ∨ a.dim = 3)
    (hres : (rescale a scale_factor).dim = a.dim) :
    (∃ c, crop_img (.ndarray a) crop_size h_offset w_offset = .ok (some c)) ∧
    (∃ out, scale_crop rescale padPix (.ndarray a) crop_size h_offset
        w_offset scale_factor K = .ok out) ∧
    (∀ b : NpImage α, b.dim ≠ 2 → b.dim ≠ 3 →
      crop_img (.ndarray b) crop_size h_offset w_offset = .ok none) := by
  refine ⟨⟨crop_core a crop_size h_offset w_offset, ?_⟩,
    ⟨_, scale_crop_eq_ok rescale padPix a crop_size h_offset w_offset
      scale_factor K hdim hres⟩, ?_⟩
  · rcases hdim with h | h <;> simp [crop_img, h]
  · intro b h2 h3
    simp [crop_img, h2, h3]

/-- Closed instance of the amended C5 at a concrete 1×1 rank-2 image. -/
theorem C5_witness :
    (∃ c, crop_img (.ndarray (⟨2, 1, [[5]]⟩ : NpImage Nat)) (.scalar 1) 0 0 =
        .ok (some c)) ∧
    (∃ out, scale_crop (fun b _ => b) 0
        (.ndarray (⟨2, 1, [[5]]⟩ : NpImage Nat)) (.scalar 1) 0 0 1 none =
      .ok out) ∧
    (∀ b : NpImage Nat, b.dim ≠ 2 → b.dim ≠ 3 →
      crop_img (.ndarray b) (.scalar 1) 0 0 = .ok none) :=
  C5_success_path_total ⟨2, 1, [[5]]⟩ (.scalar 1) 0 0 (fun b _ => b) 0 1 none
    (Or.inl rfl) rfl

/-! ## C6: crop offset sampler range -/

/-- Claim C6: For every crop size, height and width, and every implementation
`randint` of `np.random.randint` (which, for `lo < hi`, returns a value of
`[lo, hi)` — never raising here since the `max(1, ·)` guard keeps the upper
bound positive), `get_random_crop_offsets` draws `w_offset` from
`[0, max(1, width - crop_width - 1))` and `h_offset` analogously; hence
whenever `height > crop_height + 1` and `width > crop_width + 1` the offset
satisfies `h_offset + crop_height ≤ height` and
`w_offset + crop_width ≤ width`, and whenever `width - crop_width - 1 ≤ 0`
(resp. for height) the offset on that axis is `0`. -/
theorem C6_offsets_in_range (randint : Int → Int → Int)
    (hrand : ∀ lo hi : Int, lo < hi →
      lo ≤ randint lo hi ∧ randint lo hi < hi)
    (crop_size : CropSize) (height width : Nat) :
    (0 ≤ (get_random_crop_offsets randint crop_size height width).2 ∧
      (get_random_crop_offsets randint crop_size height width).2 <
        max 1 ((width : Int) - crop_size.cropWidth - 1)) ∧
    (0 ≤ (get_random_crop_offsets randint crop_size height width).1 ∧
      (get_random_crop_offsets randint crop_size height width).1 <
        max 1 ((height : Int) - crop_size.cropHeight - 1)) ∧
    ((crop_size.cropHeight : Int) + 1 < height →
      (crop_size.cropWidth : Int) + 1 < width →
      (get_random_crop_offsets randint crop_size height width).1 +
          crop_size.cropHeight ≤ height ∧
        (get_random_crop_offsets randint crop_size height width).2 +
          crop_size.cropWidth ≤ width) ∧
    ((width : Int) - crop_size.cropWidth - 1 ≤ 0 →
      (get_random_crop_offsets randint crop_size height width).2 = 0) ∧
    ((height : Int) - crop_size.cropHeight - 1 ≤ 0 →
      (get_random_crop_offsets randint crop_size height width).1 = 0) := by
  have hw := hrand 0 (max 1 ((width : Int) - crop_size.cropWidth - 1))
    (lt_of_lt_of_le Int.one_pos (le_max_left _ _))
  have hh := hrand 0 (max 1 ((height : Int) - crop_size.cropHeight - 1))
    (lt_of_lt_of_le Int.one_pos (le_max_left _ _))
  simp only [get_random_crop_offsets] at *
  omega

/-- Closed instance of C6, with the lower-end implementation of `randint`
(always returning `lo`), a square crop of 2 in a 10×10 image. -/
theorem C6_witness :
    (0 ≤ (get_random_crop_offsets (fun lo _ => lo) (.scalar 2) 10 10).2 ∧
      (get_random_crop_offsets (fun lo _ => lo) (.scalar 2) 10 10).2 <
        max 1 ((10 : Int) - CropSize.cropWidth (.scalar 2) - 1)) ∧
    (0 ≤ (get_random_crop_offsets (fun lo _ => lo) (.scalar 2) 10 10).1 ∧
      (get_random_crop_offsets (fun lo _ => lo) (.scalar 2) 10 10).1 <
        max 1 ((10 : Int) - CropSize.cropHeight (.scalar 2) - 1)) ∧
    ((CropSize.cropHeight (.scalar 2) : Int) + 1 < 10 →
      (CropSize.cropWidth (.scalar 2) : Int) + 1 < 10 →
      (get_random_crop_offsets (fun lo _ => lo) (.scalar 2) 10 10).1 +
          CropSize.cropHeight (.scalar 2) ≤ 10 ∧
        (get_random_crop_offsets (fun lo _ => lo) (.scalar 2) 10 10).2 +
          CropSize.cropWidth (.scalar 2) ≤ 10) ∧
    (((10 : Nat) : Int) - CropSize.cropWidth (.scalar 2) - 1 ≤ 0 →
      (get_random_crop_offsets (fun lo _ => lo) (.scalar 2) 10 10).2 = 0) ∧
    (((10 : Nat) : Int) - CropSize.cropHeight (.scalar 2) - 1 ≤ 0 →
      (get_random_crop_offsets (fun lo _ => lo) (.scalar 2) 10 10).1 = 0) :=
  C6_offsets_in_range (fun lo _ => lo)
    (fun lo _ h => ⟨le_refl lo, h⟩) (.scalar 2) 10 10

/-! ## C2: intrinsic-matrix propagation -/

/-- Claim C2: Whenever `scale_crop` is given an intrinsic matrix `K` (and
succeeds), the returned intrinsic equals `Kp · (Kc · (Ks · K))`, where `Ks`
is the identity with `scale_factor` at `(0,0)` and `(1,1)`, `Kc` is the
identity with `(-w_offset, -h_offset)` at `(0,2)` and `(1,2)`, and `Kp` is
the identity with `(p_left, p_top)` at `(0,2)` and `(1,2)` for the pad
amounts of the conditional pad step; in particular, for
`K = [[500,0,320],[0,500,240],[0,0,1]]`, `scale_factor = 0.5`, offsets
`(h,w) = (10,20)` and zero padding, the result has focal entries `250` and
`250` and principal point `(140, 110)`. -/
theorem C2_intrinsic_composition :
    (∀ {α : Type} (rescale : NpImage α → ℚ → NpImage α) (padPix : α)
        (a : NpImage α) (crop_size : CropSize) (h_offset w_offset : Nat)
        (scale_factor : ℚ) (k : Matrix (Fin 3) (Fin 3) ℚ),
      a.dim = 2 ∨ a.dim = 3 →
      (rescale a scale_factor).dim = a.dim →
      scale_crop rescale padPix (.ndarray a) crop_size h_offset w_offset
          scale_factor (some k) =
        .ok ((scale_crop_pad
              (crop_core (rescale a scale_factor) crop_size h_offset w_offset)
              crop_size.cropHeight crop_size.cropWidth padPix).1,
          some (Kp_mat
              (scale_crop_pad
                (crop_core (rescale a scale_factor) crop_size h_offset
                  w_offset)
                crop_size.cropHeight crop_size.cropWidth padPix).2.2.2.1
              (scale_crop_pad
                (crop_core (rescale a scale_factor) crop_size h_offset
                  w_offset)
                crop_size.cropHeight crop_size.cropWidth padPix).2.1 *
            (Kc_mat w_offset h_offset * (Ks_mat scale_factor * k))))) ∧
    scale_crop (fun b _ => b) 0
        (.ndarray (⟨2, 25, List.replicate 14 (List.replicate 25 (0 : Nat))⟩ :
          NpImage Nat))
        (.pair 3 4) 10 20 (1/2)
        (some !![500, 0, 320; 0, 500, 240; 0, 0, 1]) =
      .ok (⟨2, 4, List.replicate 3 (List.replicate 4 0)⟩,
        some !![250, 0, 140; 0, 250, 110; 0, 0, 1]) := by
  constructor
  · intro α rescale padPix a crop_size h_offset w_offset scale_factor k hdim
      hres
    simpa using scale_crop_eq_ok rescale padPix a crop_size h_offset w_offset
      scale_factor (some k) hdim hres
  · have hpad : scale_crop_pad
        (crop_core (⟨2, 25, List.replicate 14 (List.replicate 25 (0 : Nat))⟩ :
          NpImage Nat) (.pair 3 4) 10 20) 3 4 0 =
        (⟨2, 4, List.replicate 3 (List.replicate 4 0)⟩, 0, 0, 0, 0) := by
      decide
    rw [scale_crop_eq_ok (fun b _ => b) 0 _ (.pair 3 4) 10 20 (1/2)
      (some !![500, 0, 320; 0, 500, 240; 0, 0, 1]) (Or.inl rfl) rfl]
    simp only [CropSize.cropHeight, CropSize.cropWidth, Option.map_some']
    rw [hpad]
    norm_num [Kp_mat, Kc_mat, Ks_mat, Matrix.mul_fin_three]

/-- Closed instance of the general conjunct of C2 at a degenerate (empty,
zero-crop) image with scale factor 2 and offsets `(3, 5)`: the intrinsic is
updated by the composed transform with zero pad translation. -/
theorem C2_witness :
    scale_crop (fun b _ => b) (0 : Nat) (.ndarray ⟨2, 0, []⟩) (.pair 0 0) 3 5
        2 (some 1) =
      .ok (⟨2, 0, []⟩, some (Kp_mat 0 0 * (Kc_mat 5 3 * (Ks_mat 2 * 1)))) := by
  have h := C2_intrinsic_composition.1 (fun b _ => b) 0
    (⟨2, 0, []⟩ : NpImage Nat) (.pair 0 0) 3 5 2 1 (Or.inl rfl) rfl
  simpa [scale_crop_pad, crop_core, CropSize.cropHeight, CropSize.cropWidth,
    NpImage.height] using h

end DataAugment
